import Mathlib

/-!
Shallow embedding of the `systemsem_extractor` similarity pipeline.

Python floats are modelled as exact rationals (`ℚ`): every constant in the
source is a short decimal literal and every operation used (addition,
multiplication, `min`, comparisons) is exact on those values.
Python dicts are modelled as association lists with first-match lookup
(`List.lookup`), insertion modelled as appending a fresh key at the end,
which matches CPython's insertion-ordered dict for keys not yet present.

Source files embedded:
  * src/src/processors/composite_similarity_calculator.py
    (class FixedSimilarityCalculator)
  * src/src/processors/correlation_processor.py
    (_add_high_confidence_pairs, _format_for_memoria)
  * src/src/generators/json_generator.py (generate_correlations_json)

Leading underscores of Python method names are dropped
(`_calculate_semantic_base` becomes `calculate_semantic_base`, etc.).
-/

namespace SystemsemExtractor

/-- One entry of `self.language_families`:
`{'family': ..., 'branch': ..., 'sub_branch': ...}`. -/
structure Classification where
  family : String
  branch : String
  sub_branch : String
deriving DecidableEq, Repr

/-- `self.language_families` from `FixedSimilarityCalculator.__init__`
(composite_similarity_calculator.py lines 22-35). -/
def language_families : List (String × Classification) :=
  [ ("es", ⟨"Indo-European", "Romance", "Ibero-Romance"⟩),
    ("it", ⟨"Indo-European", "Romance", "Italo-Western"⟩),
    ("fr", ⟨"Indo-European", "Romance", "Gallo-Romance"⟩),
    ("pt", ⟨"Indo-European", "Romance", "Ibero-Romance"⟩),
    ("ro", ⟨"Indo-European", "Romance", "Eastern Romance"⟩),
    ("en", ⟨"Indo-European", "Germanic", "West Germanic"⟩),
    ("de", ⟨"Indo-European", "Germanic", "West Germanic"⟩),
    ("nl", ⟨"Indo-European", "Germanic", "West Germanic"⟩),
    ("ru", ⟨"Indo-European", "Slavic", "East Slavic"⟩),
    ("pl", ⟨"Indo-European", "Slavic", "West Slavic"⟩),
    ("hi", ⟨"Indo-European", "Indo-Aryan", "Central Indo-Aryan"⟩),
    ("ur", ⟨"Indo-European", "Indo-Aryan", "Central Indo-Aryan"⟩) ]

/-- `self.historical_contacts` (lines 38-46), keyed by ordered pairs. -/
def historical_contacts : List ((String × String) × ℚ) :=
  [ (("es", "it"), 0.45),
    (("es", "fr"), 0.40),
    (("it", "fr"), 0.50),
    (("en", "fr"), 0.35),
    (("en", "de"), 0.25),
    (("ru", "pl"), 0.30),
    (("hi", "ur"), 0.65) ]

/-- One entry of `self.family_similarity_baselines` (lines 49-70); the
third (`base_*`) key of each branch is present in the source but unused. -/
structure BranchBaselines where
  same_sub_branch : ℚ
  different_sub_branch : ℚ
  base : ℚ
deriving DecidableEq, Repr

/-- `self.family_similarity_baselines` (lines 49-70). -/
def family_similarity_baselines : List (String × BranchBaselines) :=
  [ ("Romance", ⟨0.85, 0.75, 0.70⟩),
    ("Germanic", ⟨0.70, 0.60, 0.55⟩),
    ("Slavic", ⟨0.75, 0.65, 0.60⟩),
    ("Indo-Aryan", ⟨0.80, 0.65, 0.60⟩) ]

/-- Direct indexing `self.family_similarity_baselines[branch]`; the source
only indexes with the four keys that exist, so the default is never hit. -/
def baselines_get (branch : String) : BranchBaselines :=
  (family_similarity_baselines.lookup branch).getD ⟨0, 0, 0⟩

/-- `_calculate_semantic_base` (lines 126-133). -/
def calculate_semantic_base (systemsem_correlation : Option ℚ) : ℚ :=
  match systemsem_correlation with
  | some r => 0.5 + r * 0.5
  | none => 0.60

/-- `_calculate_family_similarity_fixed` (lines 135-180). -/
def calculate_family_similarity_fixed (lang1 lang2 : String) : ℚ :=
  match language_families.lookup lang1, language_families.lookup lang2 with
  | some family1, some family2 =>
      if family1.family ≠ family2.family then 0.1
      else if family1.branch ≠ family2.branch then 0.3
      else
        let branch := family1.branch
        if branch = "Romance" then
          if family1.sub_branch = family2.sub_branch then
            (baselines_get "Romance").same_sub_branch
          else (baselines_get "Romance").different_sub_branch
        else if branch = "Germanic" then
          if family1.sub_branch = family2.sub_branch then
            (baselines_get "Germanic").same_sub_branch
          else (baselines_get "Germanic").different_sub_branch
        else if branch = "Slavic" then
          if family1.sub_branch = family2.sub_branch then
            (baselines_get "Slavic").same_sub_branch
          else (baselines_get "Slavic").different_sub_branch
        else if branch = "Indo-Aryan" then
          if family1.sub_branch = family2.sub_branch then
            (baselines_get "Indo-Aryan").same_sub_branch
          else (baselines_get "Indo-Aryan").different_sub_branch
        else 0.65
  | _, _ => 0.1

/-- `_calculate_contact_similarity_fixed` (lines 182-192):
`self.historical_contacts.get(key1, self.historical_contacts.get(key2, 0.0))`. -/
def calculate_contact_similarity_fixed (lang1 lang2 : String) : ℚ :=
  ((historical_contacts.lookup (lang1, lang2)).getD
    ((historical_contacts.lookup (lang2, lang1)).getD 0.0))

/-- The local dict `cultural_proximities` of
`_calculate_cultural_similarity_fixed` (lines 198-205). -/
def cultural_proximities : List ((String × String) × ℚ) :=
  [ (("es", "it"), 0.40),
    (("es", "fr"), 0.35),
    (("it", "fr"), 0.38),
    (("en", "de"), 0.25),
    (("ru", "pl"), 0.30),
    (("hi", "ur"), 0.50) ]

/-- `_calculate_cultural_similarity_fixed` (lines 194-210):
`cultural_proximities.get(key1, cultural_proximities.get(key2, 0.1))`. -/
def calculate_cultural_similarity_fixed (lang1 lang2 : String) : ℚ :=
  ((cultural_proximities.lookup (lang1, lang2)).getD
    ((cultural_proximities.lookup (lang2, lang1)).getD 0.1))

/-- `_calculate_global_score` (lines 212-231). -/
def calculate_global_score (semantic_base family_sim contact_sim cultural_sim : ℚ) : ℚ :=
  min (semantic_base * 0.40 + family_sim * 0.35 + contact_sim * 0.15 +
    cultural_sim * 0.10) 1.0

/-- `_calculate_local_score` (lines 233-243). -/
def calculate_local_score (semantic_base family_sim contact_sim : ℚ) : ℚ :=
  min (semantic_base * 0.50 + family_sim * 0.40 + contact_sim * 0.10) 1.0

/-- `_determine_confidence` (lines 245-255). -/
def determine_confidence (family_sim contact_sim : ℚ) : String :=
  if family_sim ≥ 0.70 then "high"
  else if family_sim ≥ 0.50 ∨ contact_sim ≥ 0.30 then "medium-high"
  else if family_sim ≥ 0.30 ∨ contact_sim ≥ 0.15 then "medium"
  else "low"

set_option linter.unusedVariables false in
/-- `_determine_strategy` (lines 257-267); the two language arguments are
taken but unused, exactly as in the source. -/
def determine_strategy (lang1 lang2 : String) (family_sim contact_sim : ℚ) : String :=
  if family_sim ≥ 0.70 then "cognate_recognition"
  else if contact_sim ≥ 0.30 then "borrowing_patterns"
  else if family_sim ≥ 0.30 then "structural_comparison"
  else "conceptual_bridging"

/-- The `'breakdown'` sub-dict of the result (lines 111-116). -/
structure Breakdown where
  semantic_base : ℚ
  family_similarity : ℚ
  contact_similarity : ℚ
  cultural_similarity : ℚ
deriving DecidableEq, Repr

/-- The result dict of `calculate_composite_similarity` (lines 105-119);
the dict key `'local'` is the field `local_score` (`local` is reserved in
Lean). -/
structure SimilarityRecord where
  score : ℚ
  global : ℚ
  local_score : ℚ
  confidence : String
  strategy : String
  breakdown : Breakdown
  systematic_measures_used : List String
  calculation_method : String
deriving DecidableEq, Repr

/-- `calculate_composite_similarity` (lines 72-124). -/
def calculate_composite_similarity (lang1 lang2 : String)
    (systemsem_correlation : Option ℚ) : SimilarityRecord :=
  let semantic_base := calculate_semantic_base systemsem_correlation
  let family_similarity := calculate_family_similarity_fixed lang1 lang2
  let contact_similarity := calculate_contact_similarity_fixed lang1 lang2
  let cultural_similarity := calculate_cultural_similarity_fixed lang1 lang2
  let global_score := calculate_global_score semantic_base family_similarity
    contact_similarity cultural_similarity
  let local_score := calculate_local_score semantic_base family_similarity
    contact_similarity
  let confidence := determine_confidence family_similarity contact_similarity
  let strategy := determine_strategy lang1 lang2 family_similarity contact_similarity
  { score := global_score
    global := global_score
    local_score := local_score
    confidence := confidence
    strategy := strategy
    breakdown := ⟨semantic_base, family_similarity, contact_similarity,
      cultural_similarity⟩
    systematic_measures_used := ["wals_corrected", "asjp", "physical", "ecological"]
    calculation_method := "fixed_systematic" }

/-- `clamp01`, written from the spec's words (`clamp01(x)` restricts a value
to the closed interval `[0,1]`); used to compare the code's `min (· , 1.0)`
against the spec's combination formula. -/
def clamp01 (x : ℚ) : ℚ :=
  min (max x 0) 1

/-! ### Generic association-list lemmas (dict model) -/

theorem lookup_append_of_some {α β} [BEq α] {l1 : List (α × β)} (l2 : List (α × β))
    {k : α} {v : β} (h : l1.lookup k = some v) : (l1 ++ l2).lookup k = some v := by
  induction l1 with
  | nil => simp [List.lookup] at h
  | cons p t ih =>
    obtain ⟨pk, pv⟩ := p
    rw [List.lookup] at h
    rw [List.cons_append, List.lookup]
    cases hbeq : (k == pk) with
    | true => rw [hbeq] at h; simpa using h
    | false => rw [hbeq] at h; simpa using ih h

theorem lookup_append_of_none {α β} [BEq α] {l1 : List (α × β)} (l2 : List (α × β))
    {k : α} (h : l1.lookup k = none) : (l1 ++ l2).lookup k = l2.lookup k := by
  induction l1 with
  | nil => simp
  | cons p t ih =>
    obtain ⟨pk, pv⟩ := p
    rw [List.lookup] at h
    rw [List.cons_append, List.lookup]
    cases hbeq : (k == pk) with
    | true => rw [hbeq] at h; simp at h
    | false => rw [hbeq] at h; exact ih h

theorem mem_values_of_lookup_eq_some {α β} [BEq α] {l : List (α × β)}
    {k : α} {v : β} (h : l.lookup k = some v) : v ∈ l.map Prod.snd := by
  induction l with
  | nil => simp [List.lookup] at h
  | cons p t ih =>
    obtain ⟨pk, pv⟩ := p
    rw [List.lookup] at h
    cases hbeq : (k == pk) with
    | true => rw [hbeq] at h; simp at h; simp [h]
    | false => rw [hbeq] at h; simpa using Or.inr (ih h)

/-! ### Range lemmas for the four components -/

theorem family_similarity_bounds (lang1 lang2 : String) :
    0 ≤ calculate_family_similarity_fixed lang1 lang2 ∧
      calculate_family_similarity_fixed lang1 lang2 ≤ 1 := by
  unfold calculate_family_similarity_fixed
  cases h1 : language_families.lookup lang1 with
  | none => norm_num
  | some family1 =>
    cases h2 : language_families.lookup lang2 with
    | none => norm_num
    | some family2 =>
      simp only []
      split_ifs <;>
        norm_num [show baselines_get "Romance" = ⟨0.85, 0.75, 0.70⟩ from rfl,
          show baselines_get "Germanic" = ⟨0.70, 0.60, 0.55⟩ from rfl,
          show baselines_get "Slavic" = ⟨0.75, 0.65, 0.60⟩ from rfl,
          show baselines_get "Indo-Aryan" = ⟨0.80, 0.65, 0.60⟩ from rfl]

theorem contact_similarity_bounds (lang1 lang2 : String) :
    0 ≤ calculate_contact_similarity_fixed lang1 lang2 ∧
      calculate_contact_similarity_fixed lang1 lang2 ≤ 1 := by
  unfold calculate_contact_similarity_fixed
  cases h1 : historical_contacts.lookup (lang1, lang2) with
  | none =>
    cases h2 : historical_contacts.lookup (lang2, lang1) with
    | none => norm_num
    | some v =>
      have hv := mem_values_of_lookup_eq_some h2
      simp [historical_contacts] at hv
      rcases hv with h | h | h | h | h | h | h <;> subst h <;> norm_num
  | some v =>
    have hv := mem_values_of_lookup_eq_some h1
    simp [historical_contacts] at hv
    rcases hv with h | h | h | h | h | h | h <;> subst h <;> norm_num

theorem cultural_similarity_bounds (lang1 lang2 : String) :
    0 ≤ calculate_cultural_similarity_fixed lang1 lang2 ∧
      calculate_cultural_similarity_fixed lang1 lang2 ≤ 1 := by
  unfold calculate_cultural_similarity_fixed
  cases h1 : cultural_proximities.lookup (lang1, lang2) with
  | none =>
    cases h2 : cultural_proximities.lookup (lang2, lang1) with
    | none => norm_num
    | some v =>
      have hv := mem_values_of_lookup_eq_some h2
      simp [cultural_proximities] at hv
      rcases hv with h | h | h | h | h | h <;> subst h <;> norm_num
  | some v =>
    have hv := mem_values_of_lookup_eq_some h1
    simp [cultural_proximities] at hv
    rcases hv with h | h | h | h | h | h <;> subst h <;> norm_num

theorem semantic_base_bounds (r : Option ℚ)
    (h : ∀ x, r = some x → -1 ≤ x ∧ x ≤ 1) :
    0 ≤ calculate_semantic_base r ∧ calculate_semantic_base r ≤ 1 := by
  cases r with
  | none => norm_num [calculate_semantic_base]
  | some x =>
    obtain ⟨hl, hr⟩ := h x rfl
    unfold calculate_semantic_base
    constructor <;> nlinarith

/-! ### Claim theorems -/

/-- C1: for every pair of language codes and every semantic correlation in
`[-1,1]` or absent, the returned global score is
`clamp01(0.40·semanticBase + 0.35·familySimilarity + 0.15·contactSimilarity
+ 0.10·culturalSimilarity)` and the returned local score is
`clamp01(0.50·semanticBase + 0.40·familySimilarity +
0.10·contactSimilarity)`, where the semantic base is `0.5 + 0.5·r` (or the
default `0.60` when the correlation is absent); consequently both scores
lie in `[0,1]`. -/
theorem global_local_are_clamped_weighted_sums (lang1 lang2 : String) (r : Option ℚ)
    (h : ∀ x, r = some x → -1 ≤ x ∧ x ≤ 1) :
    (calculate_composite_similarity lang1 lang2 r).global =
      clamp01 (0.40 * calculate_semantic_base r +
        0.35 * calculate_family_similarity_fixed lang1 lang2 +
        0.15 * calculate_contact_similarity_fixed lang1 lang2 +
        0.10 * calculate_cultural_similarity_fixed lang1 lang2) ∧
    (calculate_composite_similarity lang1 lang2 r).local_score =
      clamp01 (0.50 * calculate_semantic_base r +
        0.40 * calculate_family_similarity_fixed lang1 lang2 +
        0.10 * calculate_contact_similarity_fixed lang1 lang2) ∧
    (∀ x, r = some x → calculate_semantic_base r = 0.5 + 0.5 * x) ∧
    (r = none → calculate_semantic_base r = 0.60) ∧
    0 ≤ (calculate_composite_similarity lang1 lang2 r).global ∧
    (calculate_composite_similarity lang1 lang2 r).global ≤ 1 ∧
    0 ≤ (calculate_composite_similarity lang1 lang2 r).local_score ∧
    (calculate_composite_similarity lang1 lang2 r).local_score ≤ 1 := by
  obtain ⟨hsb0, hsb1⟩ := semantic_base_bounds r h
  obtain ⟨hf0, hf1⟩ := family_similarity_bounds lang1 lang2
  obtain ⟨hc0, hc1⟩ := contact_similarity_bounds lang1 lang2
  obtain ⟨hu0, hu1⟩ := cultural_similarity_bounds lang1 lang2
  have hg : (calculate_composite_similarity lang1 lang2 r).global =
      calculate_global_score (calculate_semantic_base r)
        (calculate_family_similarity_fixed lang1 lang2)
        (calculate_contact_similarity_fixed lang1 lang2)
        (calculate_cultural_similarity_fixed lang1 lang2) := rfl
  have hl : (calculate_composite_similarity lang1 lang2 r).local_score =
      calculate_local_score (calculate_semantic_base r)
        (calculate_family_similarity_fixed lang1 lang2)
        (calculate_contact_similarity_fixed lang1 lang2) := rfl
  have hposg : (0:ℚ) ≤ calculate_semantic_base r * 0.40 +
      calculate_family_similarity_fixed lang1 lang2 * 0.35 +
      calculate_contact_similarity_fixed lang1 lang2 * 0.15 +
      calculate_cultural_similarity_fixed lang1 lang2 * 0.10 := by linarith
  have hposl : (0:ℚ) ≤ calculate_semantic_base r * 0.50 +
      calculate_family_similarity_fixed lang1 lang2 * 0.40 +
      calculate_contact_similarity_fixed lang1 lang2 * 0.10 := by linarith
  refine ⟨?_, ?_, ?_, ?_, ?_, ?_, ?_, ?_⟩
  · rw [hg]
    unfold calculate_global_score clamp01
    rw [max_eq_left (by linarith)]
    norm_num
    ring_nf
  · rw [hl]
    unfold calculate_local_score clamp01
    rw [max_eq_left (by linarith)]
    norm_num
    ring_nf
  · intro x hx
    subst hx
    unfold calculate_semantic_base
    ring
  · intro hx
    subst hx
    rfl
  · rw [hg]
    unfold calculate_global_score
    rw [min_def]
    split_ifs <;> linarith
  · rw [hg]
    unfold calculate_global_score
    rw [min_def]
    split_ifs <;> linarith
  · rw [hl]
    unfold calculate_local_score
    rw [min_def]
    split_ifs <;> linarith
  · rw [hl]
    unfold calculate_local_score
    rw [min_def]
    split_ifs <;> linarith

/-- Witness for C1: the theorem applied at `score("es","it",0.58)`. -/
theorem global_local_clamped_weighted_sums_witness :
    0 ≤ (calculate_composite_similarity "es" "it" (some 0.58)).global ∧
    (calculate_composite_similarity "es" "it" (some 0.58)).global ≤ 1 ∧
    (calculate_composite_similarity "es" "it" (some 0.58)).local_score ≤ 1 := by
  have h := global_local_are_clamped_weighted_sums "es" "it" (some 0.58)
    (fun x hx => by injection hx with hx; subst hx; norm_num)
  exact ⟨h.2.2.2.2.1, h.2.2.2.2.2.1, h.2.2.2.2.2.2.2⟩

/-- C10: the record returned by the calculator carries a `score` field equal
to its `global` field, and the extra fields `systematic_measures_used` and
`calculation_method` (with their constant values) beyond the spec's
`SimilarityResult` shape. -/
theorem score_field_equals_global_field (lang1 lang2 : String) (r : Option ℚ) :
    (calculate_composite_similarity lang1 lang2 r).score =
      (calculate_composite_similarity lang1 lang2 r).global ∧
    (calculate_composite_similarity lang1 lang2 r).systematic_measures_used =
      ["wals_corrected", "asjp", "physical", "ecological"] ∧
    (calculate_composite_similarity lang1 lang2 r).calculation_method =
      "fixed_systematic" :=
  ⟨rfl, rfl, rfl⟩

/-- Component values of the ES-IT pair, evaluated from the tables. -/
theorem es_it_components :
    calculate_family_similarity_fixed "es" "it" = 0.75 ∧
    calculate_contact_similarity_fixed "es" "it" = 0.45 ∧
    calculate_cultural_similarity_fixed "es" "it" = 0.40 :=
  ⟨rfl, rfl, rfl⟩

/-- C4 counterexample: `score("es","it",0.58)` actually returns
`global = 0.686` (not ≈ 0.641: the spec's own weighted sum
`0.316 + 0.2625 + 0.0675 + 0.04` is `0.686`) and `confidence = "high"`
(family 0.75 ≥ 0.70 fires first), not `"medium-high"`. -/
theorem es_it_058_claimed_values_refuted :
    (calculate_composite_similarity "es" "it" (some 0.58)).global = 0.686 ∧
    (calculate_composite_similarity "es" "it" (some 0.58)).global ≠ 0.641 ∧
    (calculate_composite_similarity "es" "it" (some 0.58)).confidence = "high" ∧
    (calculate_composite_similarity "es" "it" (some 0.58)).confidence ≠ "medium-high" := by
  obtain ⟨hf, hc, hu⟩ := es_it_components
  have hg : (calculate_composite_similarity "es" "it" (some 0.58)).global =
      calculate_global_score (calculate_semantic_base (some 0.58))
        (calculate_family_similarity_fixed "es" "it")
        (calculate_contact_similarity_fixed "es" "it")
        (calculate_cultural_similarity_fixed "es" "it") := rfl
  have hconf : (calculate_composite_similarity "es" "it" (some 0.58)).confidence =
      determine_confidence (calculate_family_similarity_fixed "es" "it")
        (calculate_contact_similarity_fixed "es" "it") := rfl
  have hgv : (calculate_composite_similarity "es" "it" (some 0.58)).global = 0.686 := by
    rw [hg, hf, hc, hu]
    norm_num [calculate_global_score, calculate_semantic_base, min_def]
  have hcv : (calculate_composite_similarity "es" "it" (some 0.58)).confidence = "high" := by
    rw [hconf, hf, hc]
    norm_num [determine_confidence]
  refine ⟨hgv, ?_, hcv, ?_⟩
  · rw [hgv]; norm_num
  · rw [hcv]; decide

/-- C4 amended: `score("es","it",0.58)` produces semanticBase 0.79,
familySimilarity 0.75, contactSimilarity 0.45, culturalSimilarity 0.40,
global = 0.686 exactly, local = 0.740 exactly, and confidence = "high"
(with strategy = "cognate_recognition"). -/
theorem es_it_058_actual_record :
    (calculate_composite_similarity "es" "it" (some 0.58)).breakdown =
      ⟨0.79, 0.75, 0.45, 0.40⟩ ∧
    (calculate_composite_similarity "es" "it" (some 0.58)).global = 0.686 ∧
    (calculate_composite_similarity "es" "it" (some 0.58)).local_score = 0.740 ∧
    (calculate_composite_similarity "es" "it" (some 0.58)).confidence = "high" ∧
    (calculate_composite_similarity "es" "it" (some 0.58)).strategy =
      "cognate_recognition" := by
  obtain ⟨hf, hc, hu⟩ := es_it_components
  have hb : (calculate_composite_similarity "es" "it" (some 0.58)).breakdown =
      ⟨calculate_semantic_base (some 0.58),
        calculate_family_similarity_fixed "es" "it",
        calculate_contact_similarity_fixed "es" "it",
        calculate_cultural_similarity_fixed "es" "it"⟩ := rfl
  have hg : (calculate_composite_similarity "es" "it" (some 0.58)).global =
      calculate_global_score (calculate_semantic_base (some 0.58))
        (calculate_family_similarity_fixed "es" "it")
        (calculate_contact_similarity_fixed "es" "it")
        (calculate_cultural_similarity_fixed "es" "it") := rfl
  have hl : (calculate_composite_similarity "es" "it" (some 0.58)).local_score =
      calculate_local_score (calculate_semantic_base (some 0.58))
        (calculate_family_similarity_fixed "es" "it")
        (calculate_contact_similarity_fixed "es" "it") := rfl
  have hconf : (calculate_composite_similarity "es" "it" (some 0.58)).confidence =
      determine_confidence (calculate_family_similarity_fixed "es" "it")
        (calculate_contact_similarity_fixed "es" "it") := rfl
  have hstr : (calculate_composite_similarity "es" "it" (some 0.58)).strategy =
      determine_strategy "es" "it" (calculate_family_similarity_fixed "es" "it")
        (calculate_contact_similarity_fixed "es" "it") := rfl
  refine ⟨?_, ?_, ?_, ?_, ?_⟩
  · rw [hb, hf, hc, hu]
    norm_num [Breakdown.mk.injEq, calculate_semantic_base]
  · rw [hg, hf, hc, hu]
    norm_num [calculate_global_score, calculate_semantic_base, min_def]
  · rw [hl, hf, hc]
    norm_num [calculate_local_score, calculate_semantic_base, min_def]
  · rw [hconf, hf, hc]
    norm_num [determine_confidence]
  · rw [hstr, hf, hc]
    norm_num [determine_strategy]

/-- C5 counterexample: the pair (en, fr) is absent from the cultural
proximity table in both orderings, yet the cultural lookup returns 0.1,
not the claimed 0.0. -/
theorem cultural_default_is_not_zero :
    cultural_proximities.lookup ("en", "fr") = none ∧
    cultural_proximities.lookup ("fr", "en") = none ∧
    calculate_cultural_similarity_fixed "en" "fr" = 0.1 ∧
    calculate_cultural_similarity_fixed "en" "fr" ≠ 0 := by
  refine ⟨rfl, rfl, rfl, ?_⟩
  rw [show calculate_cultural_similarity_fixed "en" "fr" = 0.1 from rfl]
  norm_num

/-- C5 amended: for every pair absent from the bonus tables in both
orderings, the lookups return their defaults and never fail: contact
similarity defaults to 0.0 but cultural similarity defaults to 0.1. -/
theorem bonus_lookup_defaults (lang1 lang2 : String)
    (h1 : historical_contacts.lookup (lang1, lang2) = none)
    (h2 : historical_contacts.lookup (lang2, lang1) = none)
    (h3 : cultural_proximities.lookup (lang1, lang2) = none)
    (h4 : cultural_proximities.lookup (lang2, lang1) = none) :
    calculate_contact_similarity_fixed lang1 lang2 = 0 ∧
    calculate_cultural_similarity_fixed lang1 lang2 = 0.1 := by
  unfold calculate_contact_similarity_fixed calculate_cultural_similarity_fixed
  rw [h1, h2, h3, h4]
  norm_num

/-- Witness for the amended C5 at the pair (en, zh), absent from both
tables. -/
theorem bonus_lookup_defaults_witness :
    calculate_contact_similarity_fixed "en" "zh" = 0 ∧
    calculate_cultural_similarity_fixed "en" "zh" = 0.1 :=
  bonus_lookup_defaults "en" "zh" rfl rfl rfl rfl

/-- C6 counterexample: the out-of-range correlation 3 is not clamped
(`clamp(3) = 1` but the semantic base becomes `0.5 + 0.5·3 = 2`), and
`score("es","it",3)` differs from `score("es","it",clamp(3))`:
global 1.0 versus 0.77. -/
theorem out_of_range_correlation_not_clamped :
    calculate_semantic_base (some 3) = 2 ∧
    max (-1 : ℚ) (min 1 3) = 1 ∧
    (calculate_composite_similarity "es" "it" (some 3)).global = 1 ∧
    (calculate_composite_similarity "es" "it" (some 1)).global = 0.77 ∧
    (calculate_composite_similarity "es" "it" (some 3)).global ≠
      (calculate_composite_similarity "es" "it" (some 1)).global := by
  obtain ⟨hf, hc, hu⟩ := es_it_components
  have hg3 : (calculate_composite_similarity "es" "it" (some 3)).global =
      calculate_global_score (calculate_semantic_base (some 3))
        (calculate_family_similarity_fixed "es" "it")
        (calculate_contact_similarity_fixed "es" "it")
        (calculate_cultural_similarity_fixed "es" "it") := rfl
  have hg1 : (calculate_composite_similarity "es" "it" (some 1)).global =
      calculate_global_score (calculate_semantic_base (some 1))
        (calculate_family_similarity_fixed "es" "it")
        (calculate_contact_similarity_fixed "es" "it")
        (calculate_cultural_similarity_fixed "es" "it") := rfl
  have hv3 : (calculate_composite_similarity "es" "it" (some 3)).global = 1 := by
    rw [hg3, hf, hc, hu]
    norm_num [calculate_global_score, calculate_semantic_base, min_def]
  have hv1 : (calculate_composite_similarity "es" "it" (some 1)).global = 0.77 := by
    rw [hg1, hf, hc, hu]
    norm_num [calculate_global_score, calculate_semantic_base, min_def]
  refine ⟨?_, ?_, hv3, hv1, ?_⟩
  · norm_num [calculate_semantic_base]
  · norm_num
  · rw [hv3, hv1]; norm_num

/-- C6 amended: no clamping happens anywhere — the semantic base is
`0.5 + 0.5·r` for every supplied correlation `r`, in range or not; the
calculator is a total function, so such input is never rejected. -/
theorem semantic_base_uses_correlation_unclamped (r : ℚ) :
    calculate_semantic_base (some r) = 0.5 + 0.5 * r := by
  unfold calculate_semantic_base
  ring

/-- The per-branch two-tier table exactly as the claim words it: for each
branch, the pair ("same sub-branch" value, "different sub-branch" value);
this definition follows the claim, to be compared with the code. -/
def claimed_tier_table : List (String × (ℚ × ℚ)) :=
  [ ("Romance", (0.85, 0.75)),
    ("Germanic", (0.70, 0.60)),
    ("Slavic", (0.75, 0.65)),
    ("Indo-Aryan", (0.80, 0.65)) ]

/-- C2: the family similarity component follows the claimed decision table:
0.1 when either language has no classification; 0.1 when the top-level
families differ; 0.3 when the families match but the branches differ; else
the per-branch two-tier value (same/different sub-branch), with 0.65 as the
default for a branch missing from the tier table. -/
theorem family_similarity_decision_table (lang1 lang2 : String) :
    ((language_families.lookup lang1 = none ∨ language_families.lookup lang2 = none) →
      calculate_family_similarity_fixed lang1 lang2 = 0.1) ∧
    (∀ c1 c2, language_families.lookup lang1 = some c1 →
      language_families.lookup lang2 = some c2 →
      (c1.family ≠ c2.family → calculate_family_similarity_fixed lang1 lang2 = 0.1) ∧
      (c1.family = c2.family → c1.branch ≠ c2.branch →
        calculate_family_similarity_fixed lang1 lang2 = 0.3) ∧
      (c1.family = c2.family → c1.branch = c2.branch →
        calculate_family_similarity_fixed lang1 lang2 =
          (match claimed_tier_table.lookup c1.branch with
            | some t => if c1.sub_branch = c2.sub_branch then t.1 else t.2
            | none => 0.65))) := by
  unfold calculate_family_similarity_fixed
  constructor
  · intro hor
    rcases hor with h | h
    · rw [h]
    · rw [h]
      cases language_families.lookup lang1 <;> rfl
  · intro c1 c2 h1 h2
    rw [h1, h2]
    simp only []
    refine ⟨?_, ?_, ?_⟩
    · intro hne
      rw [if_pos hne]
    · intro hfam hbr
      rw [if_neg (fun hh => hh hfam), if_pos hbr]
    · intro hfam hbr
      rw [if_neg (fun hh => hh hfam), if_neg (fun hh => hh hbr)]
      by_cases hR : c1.branch = "Romance"
      · rw [if_pos hR, hR,
          show claimed_tier_table.lookup "Romance" = some (0.85, 0.75) from rfl]
        split_ifs <;>
          norm_num [show baselines_get "Romance" = ⟨0.85, 0.75, 0.70⟩ from rfl]
      by_cases hG : c1.branch = "Germanic"
      · rw [if_neg hR, if_pos hG, hG,
          show claimed_tier_table.lookup "Germanic" = some (0.70, 0.60) from rfl]
        split_ifs <;>
          norm_num [show baselines_get "Germanic" = ⟨0.70, 0.60, 0.55⟩ from rfl]
      by_cases hS : c1.branch = "Slavic"
      · rw [if_neg hR, if_neg hG, if_pos hS, hS,
          show claimed_tier_table.lookup "Slavic" = some (0.75, 0.65) from rfl]
        split_ifs <;>
          norm_num [show baselines_get "Slavic" = ⟨0.75, 0.65, 0.60⟩ from rfl]
      by_cases hA : c1.branch = "Indo-Aryan"
      · rw [if_neg hR, if_neg hG, if_neg hS, if_pos hA, hA,
          show claimed_tier_table.lookup "Indo-Aryan" = some (0.80, 0.65) from rfl]
        split_ifs <;>
          norm_num [show baselines_get "Indo-Aryan" = ⟨0.80, 0.65, 0.60⟩ from rfl]
      · have e1 : (c1.branch == "Romance") = false := beq_eq_false_iff_ne.mpr hR
        have e2 : (c1.branch == "Germanic") = false := beq_eq_false_iff_ne.mpr hG
        have e3 : (c1.branch == "Slavic") = false := beq_eq_false_iff_ne.mpr hS
        have e4 : (c1.branch == "Indo-Aryan") = false := beq_eq_false_iff_ne.mpr hA
        rw [if_neg hR, if_neg hG, if_neg hS, if_neg hA]
        simp only [claimed_tier_table, List.lookup, e1, e2, e3, e4]

/-- Witness for C2 at the pair (es, it): same family, same branch
(Romance), different sub-branches, so the tier table yields 0.75. -/
theorem family_similarity_decision_table_witness :
    calculate_family_similarity_fixed "es" "it" = 0.75 := by
  have h := ((family_similarity_decision_table "es" "it").2
    ⟨"Indo-European", "Romance", "Ibero-Romance"⟩
    ⟨"Indo-European", "Romance", "Italo-Western"⟩ rfl rfl).2.2 rfl rfl
  rw [h]
  rfl

/-- C3: confidence and strategy are chosen by their threshold rules
evaluated top-down with the first match winning: confidence is "high" when
family ≥ 0.70, else "medium-high" when family ≥ 0.50 or contact ≥ 0.30,
else "medium" when family ≥ 0.30 or contact ≥ 0.15, else "low"; strategy
is "cognate_recognition" when family ≥ 0.70, else "borrowing_patterns"
when contact ≥ 0.30, else "structural_comparison" when family ≥ 0.30,
else "conceptual_bridging". -/
theorem confidence_and_strategy_first_match (a b : String) (fs cs : ℚ) :
    (fs ≥ 0.70 → determine_confidence fs cs = "high") ∧
    (¬ fs ≥ 0.70 → fs ≥ 0.50 ∨ cs ≥ 0.30 →
      determine_confidence fs cs = "medium-high") ∧
    (¬ fs ≥ 0.70 → ¬ (fs ≥ 0.50 ∨ cs ≥ 0.30) → fs ≥ 0.30 ∨ cs ≥ 0.15 →
      determine_confidence fs cs = "medium") ∧
    (¬ fs ≥ 0.70 → ¬ (fs ≥ 0.50 ∨ cs ≥ 0.30) → ¬ (fs ≥ 0.30 ∨ cs ≥ 0.15) →
      determine_confidence fs cs = "low") ∧
    (fs ≥ 0.70 → determine_strategy a b fs cs = "cognate_recognition") ∧
    (¬ fs ≥ 0.70 → cs ≥ 0.30 → determine_strategy a b fs cs = "borrowing_patterns") ∧
    (¬ fs ≥ 0.70 → ¬ cs ≥ 0.30 → fs ≥ 0.30 →
      determine_strategy a b fs cs = "structural_comparison") ∧
    (¬ fs ≥ 0.70 → ¬ cs ≥ 0.30 → ¬ fs ≥ 0.30 →
      determine_strategy a b fs cs = "conceptual_bridging") := by
  unfold determine_confidence determine_strategy
  refine ⟨?_, ?_, ?_, ?_, ?_, ?_, ?_, ?_⟩ <;> intros <;> split_ifs <;> rfl

/-- Witness for C3 at family = 0.75, contact = 0.45: the first rules fire. -/
theorem confidence_and_strategy_first_match_witness :
    determine_confidence 0.75 0.45 = "high" ∧
    determine_strategy "es" "it" 0.75 0.45 = "cognate_recognition" :=
  ⟨(confidence_and_strategy_first_match "es" "it" 0.75 0.45).1 (by norm_num),
    (confidence_and_strategy_first_match "es" "it" 0.75 0.45).2.2.2.2.1 (by norm_num)⟩

/-- A Python/JSON value as it occurs in this pipeline's dicts. -/
inductive PyVal where
  | num (q : ℚ)
  | str (s : String)
  | strList (l : List String)
  | breakdownVal (b : Breakdown)
  | dict (entries : List (String × PyVal))

/-- The result dict literal of `calculate_composite_similarity`
(composite_similarity_calculator.py lines 105-119), with its exact keys in
order; in particular it has a `systematic_measures_used` key and no
`evidence_sources` key. -/
def result_dict (r : SimilarityRecord) : List (String × PyVal) :=
  [ ("score", .num r.score),
    ("global", .num r.global),
    ("local", .num r.local_score),
    ("confidence", .str r.confidence),
    ("strategy", .str r.strategy),
    ("breakdown", .breakdownVal r.breakdown),
    ("systematic_measures_used", .strList r.systematic_measures_used),
    ("calculation_method", .str r.calculation_method) ]

/-- One entry of `_format_for_memoria` (correlation_processor.py lines
164-173): the dict literal reads the keys `global`, `local`, `confidence`,
`strategy`, `breakdown`, `evidence_sources` of `similarity_data` in that
order; a missing key raises `KeyError(key)`, modelled as `Except.error key`. -/
def format_for_memoria_entry (similarity_data : List (String × PyVal)) :
    Except String (List (String × PyVal)) :=
  match similarity_data.lookup "global" with
  | none => .error "global"
  | some g =>
    match similarity_data.lookup "local" with
    | none => .error "local"
    | some l =>
      match similarity_data.lookup "confidence" with
      | none => .error "confidence"
      | some c =>
        match similarity_data.lookup "strategy" with
        | none => .error "strategy"
        | some s =>
          match similarity_data.lookup "breakdown" with
          | none => .error "breakdown"
          | some b =>
            match similarity_data.lookup "evidence_sources" with
            | none => .error "evidence_sources"
            | some ev =>
              .ok [ ("global", g), ("local", l), ("confidence", c),
                ("strategy", s), ("breakdown", b), ("evidence", ev) ]

/-- `_format_for_memoria` (correlation_processor.py lines 160-175): loops
over the pairs, uppercases each pair key and reshapes the value; the first
`KeyError` aborts the whole call. -/
def format_for_memoria
    (composite_similarities : List (String × List (String × PyVal))) :
    Except String (List (String × List (String × PyVal))) :=
  match composite_similarities with
  | [] => .ok []
  | (pair_key, similarity_data) :: rest =>
    match format_for_memoria_entry similarity_data with
    | .error e => .error e
    | .ok entry =>
      match format_for_memoria rest with
      | .error e => .error e
      | .ok restOut => .ok ((pair_key.toUpper, entry) :: restOut)

/-- The output object built by `generate_correlations_json`
(json_generator.py lines 18-35); `_write_json` (lines 71-79) serializes
this object as-is, applying no transformation to any number. -/
def generate_correlations_json_output
    (correlations_data : List (String × PyVal)) : List (String × PyVal) :=
  [ ("metadata", .dict [
      ("description",
        .str "Language semantic similarity correlations from SYSTEMSEM research"),
      ("source",
        .str "SYSTEMSEM project - Local similarity and global variability paper"),
      ("extracted_by", .str "systemsem_extractor"),
      ("language_pairs", .num correlations_data.length) ]),
    ("correlations", .dict correlations_data) ]

/-- C7: every record the calculator returns lacks the `evidence_sources`
key that `_format_for_memoria` reads, so reshaping any calculator record
raises `KeyError('evidence_sources')` instead of succeeding. -/
theorem format_for_memoria_raises_key_error (pair_key lang1 lang2 : String)
    (r : Option ℚ) :
    format_for_memoria_entry
      (result_dict (calculate_composite_similarity lang1 lang2 r)) =
      Except.error "evidence_sources" ∧
    format_for_memoria
      [(pair_key, result_dict (calculate_composite_similarity lang1 lang2 r))] =
      Except.error "evidence_sources" :=
  ⟨rfl, rfl⟩

/-- C8 counterexample: the ES-PT global score 0.6315 is not a multiple of
0.001, so it cannot be the result of rounding to 3 decimal places, yet the
JSON generator emits the correlations mapping verbatim. -/
theorem emitted_numbers_not_rounded :
    (calculate_composite_similarity "es" "pt" (some 0.62)).global = 0.6315 ∧
    (¬ ∃ n : ℤ, (calculate_composite_similarity "es" "pt" (some 0.62)).global =
      (n : ℚ) / 1000) ∧
    (generate_correlations_json_output
        [("ES-PT", PyVal.num (calculate_composite_similarity "es" "pt"
          (some 0.62)).global)]).lookup "correlations" =
      some (PyVal.dict [("ES-PT", PyVal.num (calculate_composite_similarity
        "es" "pt" (some 0.62)).global)]) := by
  have hg : (calculate_composite_similarity "es" "pt" (some 0.62)).global =
      calculate_global_score (calculate_semantic_base (some 0.62))
        (calculate_family_similarity_fixed "es" "pt")
        (calculate_contact_similarity_fixed "es" "pt")
        (calculate_cultural_similarity_fixed "es" "pt") := rfl
  have hgv : (calculate_composite_similarity "es" "pt" (some 0.62)).global = 0.6315 := by
    rw [hg, show calculate_family_similarity_fixed "es" "pt" = 0.85 from rfl,
      show calculate_contact_similarity_fixed "es" "pt" = 0.0 from rfl,
      show calculate_cultural_similarity_fixed "es" "pt" = 0.1 from rfl]
    norm_num [calculate_global_score, calculate_semantic_base, min_def]
  refine ⟨hgv, ?_, rfl⟩
  rintro ⟨n, hn⟩
  rw [hgv] at hn
  have hz : (1263 : ℚ) * 1000 = (n : ℚ) * 2000 := by
    field_simp at hn
    linarith
  have hzz : (1263000 : ℤ) = n * 2000 := by exact_mod_cast hz
  omega

/-- C8 amended: no rounding happens anywhere on the outbound path — the
JSON generator embeds the correlations mapping unchanged (and `_write_json`
serializes it as-is), so every number is emitted at full precision. -/
theorem correlations_emitted_verbatim (correlations_data : List (String × PyVal)) :
    (generate_correlations_json_output correlations_data).lookup "correlations" =
      some (PyVal.dict correlations_data) :=
  rfl

/-- `important_pairs` of `_add_high_confidence_pairs`
(correlation_processor.py lines 140-148). -/
def important_pairs : List (String × String) :=
  [ ("es", "it"), ("es", "pt"), ("fr", "es"), ("en", "de"),
    ("it", "fr"), ("ru", "pl"), ("hi", "ur") ]

/-- One loop iteration of `_add_high_confidence_pairs` (lines 150-158):
insert `key1` only when neither `key1` nor `key2` is already a key; dict
insertion of a fresh key appends it at the end. -/
def add_pair_step (similarities : List (String × SimilarityRecord))
    (p : String × String) : List (String × SimilarityRecord) :=
  let key1 := p.1 ++ "-" ++ p.2
  let key2 := p.2 ++ "-" ++ p.1
  if similarities.lookup key1 = none ∧ similarities.lookup key2 = none then
    similarities ++ [(key1, calculate_composite_similarity p.1 p.2 none)]
  else similarities

/-- `_add_high_confidence_pairs` (correlation_processor.py lines 138-158),
as the fold of its loop body over the important pairs. -/
def add_high_confidence_pairs (similarities : List (String × SimilarityRecord)) :
    List (String × SimilarityRecord) :=
  important_pairs.foldl add_pair_step similarities

theorem add_pair_step_preserves {sims : List (String × SimilarityRecord)}
    {p : String × String} {k : String} {v : SimilarityRecord}
    (h : sims.lookup k = some v) : (add_pair_step sims p).lookup k = some v := by
  unfold add_pair_step
  simp only []
  split_ifs with hguard
  · exact lookup_append_of_some _ h
  · exact h

theorem add_fold_preserves {l : List (String × String)}
    {sims : List (String × SimilarityRecord)} {k : String} {v : SimilarityRecord}
    (h : sims.lookup k = some v) :
    (l.foldl add_pair_step sims).lookup k = some v := by
  induction l generalizing sims with
  | nil => simpa using h
  | cons p t ih =>
    rw [List.foldl_cons]
    exact ih (add_pair_step_preserves h)

theorem add_pair_step_key_present (sims : List (String × SimilarityRecord))
    (p : String × String) :
    (add_pair_step sims p).lookup (p.1 ++ "-" ++ p.2) ≠ none ∨
    (add_pair_step sims p).lookup (p.2 ++ "-" ++ p.1) ≠ none := by
  unfold add_pair_step
  simp only []
  split_ifs with hguard
  · left
    rw [lookup_append_of_none _ hguard.1]
    simp [List.lookup]
  · rcases not_and_or.mp hguard with h | h
    · left; exact h
    · right; exact h

theorem add_fold_key_present (p : String × String) (l : List (String × String)) :
    ∀ sims : List (String × SimilarityRecord), p ∈ l →
      ((l.foldl add_pair_step sims).lookup (p.1 ++ "-" ++ p.2) ≠ none ∨
        (l.foldl add_pair_step sims).lookup (p.2 ++ "-" ++ p.1) ≠ none) := by
  induction l with
  | nil =>
    intro sims hp
    cases hp
  | cons q t ih =>
    intro sims hp
    rw [List.foldl_cons]
    rcases List.mem_cons.mp hp with h | h
    · subst h
      rcases add_pair_step_key_present sims p with h1 | h1
      · left
        cases hsome : (add_pair_step sims p).lookup (p.1 ++ "-" ++ p.2) with
        | none => exact absurd hsome h1
        | some v => rw [add_fold_preserves hsome]; simp
      · right
        cases hsome : (add_pair_step sims p).lookup (p.2 ++ "-" ++ p.1) with
        | none => exact absurd hsome h1
        | some v => rw [add_fold_preserves hsome]; simp
    · exact ih _ h

theorem add_pair_step_stable {sims : List (String × SimilarityRecord)}
    {p : String × String}
    (h : sims.lookup (p.1 ++ "-" ++ p.2) ≠ none ∨
      sims.lookup (p.2 ++ "-" ++ p.1) ≠ none) :
    add_pair_step sims p = sims := by
  unfold add_pair_step
  simp only []
  rw [if_neg]
  rintro ⟨h1, h2⟩
  rcases h with hh | hh
  · exact hh h1
  · exact hh h2

theorem add_fold_stable (l : List (String × String)) :
    ∀ sims : List (String × SimilarityRecord),
      (∀ p ∈ l, sims.lookup (p.1 ++ "-" ++ p.2) ≠ none ∨
        sims.lookup (p.2 ++ "-" ++ p.1) ≠ none) →
      l.foldl add_pair_step sims = sims := by
  induction l with
  | nil =>
    intro sims h
    rfl
  | cons q t ih =>
    intro sims h
    rw [List.foldl_cons, add_pair_step_stable (h q (List.mem_cons_self q t)),
      ih sims (fun p hp => h p (List.mem_cons_of_mem q hp))]

theorem add_fold_new_entries (l : List (String × String)) :
    ∀ (sims : List (String × SimilarityRecord)) (k : String) (v : SimilarityRecord),
      sims.lookup k = none →
      (l.foldl add_pair_step sims).lookup k = some v →
      ∃ p ∈ l, k = p.1 ++ "-" ++ p.2 ∧
        sims.lookup (p.1 ++ "-" ++ p.2) = none ∧
        sims.lookup (p.2 ++ "-" ++ p.1) = none ∧
        v = calculate_composite_similarity p.1 p.2 none := by
  induction l with
  | nil =>
    intro sims k v h1 h2
    rw [List.foldl_nil, h1] at h2
    cases h2
  | cons q t ih =>
    intro sims k v h1 h2
    rw [List.foldl_cons] at h2
    by_cases hk : (add_pair_step sims q).lookup k = none
    · obtain ⟨p, hp, hk1, hn1, hn2, hv⟩ := ih (add_pair_step sims q) k v hk h2
      refine ⟨p, List.mem_cons_of_mem q hp, hk1, ?_, ?_, hv⟩
      · cases hcc : sims.lookup (p.1 ++ "-" ++ p.2) with
        | none => rfl
        | some w => rw [add_pair_step_preserves hcc] at hn1; cases hn1
      · cases hcc : sims.lookup (p.2 ++ "-" ++ p.1) with
        | none => rfl
        | some w => rw [add_pair_step_preserves hcc] at hn2; cases hn2
    · obtain ⟨w, hw⟩ := Option.ne_none_iff_exists'.mp hk
      have hfold : (t.foldl add_pair_step (add_pair_step sims q)).lookup k =
          some w := add_fold_preserves hw
      have hvw : v = w := by
        rw [hfold] at h2
        injection h2 with h2
        exact h2.symm
      unfold add_pair_step at hw
      simp only [] at hw
      split_ifs at hw with hguard
      · rw [lookup_append_of_none _ h1, List.lookup] at hw
        cases hbeq : (k == q.1 ++ "-" ++ q.2) with
        | true =>
          rw [hbeq] at hw
          simp only [] at hw
          injection hw with hw
          exact ⟨q, List.mem_cons_self q t, eq_of_beq hbeq, hguard.1, hguard.2,
            by rw [hvw, hw]⟩
        | false =>
          rw [hbeq] at hw
          simp [List.lookup] at hw
      · rw [h1] at hw
        cases hw

/-- C9: the pair-catalog expander never overwrites existing data and is
idempotent: every entry of the base mapping keeps its value; a key the
expander adds is an important pair inserted (scored with absent
correlation) only when neither its key nor the reversed key was present;
and running the expander twice equals running it once. -/
theorem expander_preserves_and_idempotent (base : List (String × SimilarityRecord)) :
    (∀ k v, base.lookup k = some v →
      (add_high_confidence_pairs base).lookup k = some v) ∧
    (∀ k v, base.lookup k = none →
      (add_high_confidence_pairs base).lookup k = some v →
      ∃ p ∈ important_pairs, k = p.1 ++ "-" ++ p.2 ∧
        base.lookup (p.1 ++ "-" ++ p.2) = none ∧
        base.lookup (p.2 ++ "-" ++ p.1) = none ∧
        v = calculate_composite_similarity p.1 p.2 none) ∧
    add_high_confidence_pairs (add_high_confidence_pairs base) =
      add_high_confidence_pairs base := by
  refine ⟨?_, ?_, ?_⟩
  · intro k v h
    exact add_fold_preserves h
  · intro k v h1 h2
    exact add_fold_new_entries important_pairs base k v h1 h2
  · unfold add_high_confidence_pairs
    apply add_fold_stable
    intro p hp
    exact add_fold_key_present p important_pairs base hp

/-- Witness for C9: an existing ES-IT entry survives the expander with its
value unchanged. -/
theorem expander_preserves_and_idempotent_witness :
    (add_high_confidence_pairs
      [("es-it", calculate_composite_similarity "es" "it" (some 0.58))]).lookup
      "es-it" = some (calculate_composite_similarity "es" "it" (some 0.58)) :=
  (expander_preserves_and_idempotent
    [("es-it", calculate_composite_similarity "es" "it" (some 0.58))]).1
    "es-it" (calculate_composite_similarity "es" "it" (some 0.58)) rfl

end SystemsemExtractor
